import Mathlib

/-!
Shallow embedding of the node-mlx native bridge (src/native/src/binding.cc)
together with the C interface it binds to
(src/packages/node-mlx/native/include/node_mlx.h).

Modelling choices:
* The process-wide globals of binding.cc (dylib_handle and the six resolved
  function pointers) become the explicit state type BridgeState.
* The dynamically loaded library is an external oracle: a NativeLib records
  which of the six entry points the library exports, and the behaviour of
  the ones that return values.  dlopen is modelled by a World, a map from
  path to either a loader diagnostic (dlerror) or a NativeLib.
* Every bridge operation returns the new state, the list of native calls it
  performed (the observable trace across the boundary), and either a thrown
  N-API error or an ordinary result value.
* C float parameters carry no arithmetic inside the bridge (they are parsed
  from JS numbers and forwarded verbatim), so they are modelled by their
  rational value; the literals 0.7f and 0.9f become 7/10 and 9/10.
* Napi::Number::Int32Value performs the ECMAScript ToInt32 conversion
  (truncate toward zero, wrap modulo 2^32 into the signed range), modelled
  by toInt32.  The double-to-float narrowing of FloatValue is identity on
  the rational value (host numeric marshalling is outside the bridge).
* A native char pointer crossing the boundary is identified by the string
  it points to; freeing it is the freeStringCall trace event.
-/

namespace NodeMlx

/-- A host (JavaScript) value as seen through the N-API checks the bridge
performs: IsString, IsNumber, IsObject, and property lookup on objects. -/
inductive JSVal where
  | num (q : ℚ)
  | str (s : String)
  | obj (fields : List (String × JSVal))
  | jsbool (b : Bool)
  | jsnull
  | jsundefined

/-- A native call performed by the bridge, as observed at the boundary. -/
inductive NCall where
  | dlopenCall (path : String)
  | dlcloseCall
  | loadModelCall (modelId : String)
  | unloadModelCall (handle : Int)
  | generateCall (handle : Int) (prompt : String) (maxTokens : Int)
      (temperature topP : ℚ)
  | freeStringCall (ptr : String)
  | isAvailableCall
  | getVersionCall
deriving DecidableEq

/-- An error thrown to JavaScript: Napi::Error or Napi::TypeError with its
message. -/
inductive NErr where
  | err (msg : String)
  | typeErr (msg : String)
deriving DecidableEq

/-- An ordinary value returned to JavaScript. -/
inductive RVal where
  | jsboolV (b : Bool)
  | numV (n : Int)
  | strV (s : String)
  | nullV
  | undefinedV
deriving DecidableEq

/-- Behaviour of a dynamically loaded library: which of the six entry points
dlsym resolves, and what the value-returning ones do.  node_mlx_generate and
node_mlx_version return a char pointer or null, modelled as Option String.
node_mlx_load_model returns an int32 status/handle. -/
structure NativeLib where
  load_model : Option (String → Int)
  has_unload_model : Bool
  generate : Option (Int → String → Int → ℚ → ℚ → Option String)
  has_free_string : Bool
  is_available : Option Bool
  version : Option (Option String)

/-- dlopen as an oracle: for each path, either the dlerror diagnostic or the
opened library. -/
def World : Type := String → Except String NativeLib

/-- The process-wide mutable state of binding.cc: the library handle and the
six function pointers.  A pointer whose call produces a value keeps the
behaviour it was resolved to; void-returning pointers are presence flags. -/
structure BridgeState where
  dylib_handle : Bool
  fn_load_model : Option (String → Int)
  fn_unload_model : Bool
  fn_generate : Option (Int → String → Int → ℚ → ℚ → Option String)
  fn_free_string : Bool
  fn_is_available : Option Bool
  fn_get_version : Option (Option String)

/-- The state at process start: nothing loaded, every pointer null. -/
def initialState : BridgeState :=
  { dylib_handle := false
    fn_load_model := none
    fn_unload_model := false
    fn_generate := none
    fn_free_string := false
    fn_is_available := none
    fn_get_version := none }

/-- Result of one bridge operation: new state, native-call trace, and the
thrown error or returned value. -/
def StepResult : Type := BridgeState × List NCall × Except NErr RVal

/-- ECMAScript ToInt32, as performed by Napi::Number::Int32Value: truncate
toward zero, reduce modulo 2^32, reinterpret in the signed int32 range. -/
def toInt32 (q : ℚ) : Int :=
  let t : Int := q.num.tdiv (q.den : Int)
  let m : Int := t.emod 4294967296
  if m < 2147483648 then m else m - 4294967296

/-- Read an optional int32 option key: binding.cc lines 142-144.  Absent key
keeps the default; a present non-number value makes the N-API number
conversion throw. -/
def readOptInt32 (fields : List (String × JSVal)) (key : String) (dflt : Int) :
    Except NErr Int :=
  match fields.lookup key with
  | none => Except.ok dflt
  | some (JSVal.num q) => Except.ok (toInt32 q)
  | some _ => Except.error (NErr.err "A number was expected")

/-- Read an optional float option key: binding.cc lines 145-150.  The
double-to-float narrowing carries the rational value through unchanged. -/
def readOptRat (fields : List (String × JSVal)) (key : String) (dflt : ℚ) :
    Except NErr ℚ :=
  match fields.lookup key with
  | none => Except.ok dflt
  | some (JSVal.num q) => Except.ok q
  | some _ => Except.error (NErr.err "A number was expected")

/-- Parse the optional third argument of generate, binding.cc lines 133-151:
defaults 256, 0.7f, 0.9f; an options object overrides exactly the keys it
has; a missing or non-object third argument leaves all defaults. -/
def parseOpts (rest : List JSVal) : Except NErr (Int × ℚ × ℚ) :=
  match rest.head? with
  | some (JSVal.obj fields) =>
      match readOptInt32 fields "maxTokens" 256 with
      | Except.error e => Except.error e
      | Except.ok mt =>
          match readOptRat fields "temperature" (7 / 10) with
          | Except.error e => Except.error e
          | Except.ok te =>
              match readOptRat fields "topP" (9 / 10) with
              | Except.error e => Except.error e
              | Except.ok tp => Except.ok (mt, te, tp)
  | _ => Except.ok (256, 7 / 10, 9 / 10)

/-- binding.cc Initialize, lines 24-69.  Early-returns true if a library is
already loaded; requires a string path; dlopen failure throws and leaves the
state untouched; after a successful open the six symbols are resolved and,
if a mandatory one is missing, the error names each missing mandatory
symbol, the library is closed and dylib_handle reset — but the resolved
function pointers are NOT reset (exactly as in the source). -/
def Initialize (w : World) (st : BridgeState) (args : List JSVal) : StepResult :=
  if st.dylib_handle then
    (st, [], Except.ok (RVal.jsboolV true))
  else
    match args.head? with
    | some (JSVal.str dylibPath) =>
      match w dylibPath with
      | Except.error diag =>
          (st, [NCall.dlopenCall dylibPath],
           Except.error (NErr.err
             ("Failed to load dylib at " ++ dylibPath ++ ": " ++ diag)))
      | Except.ok lib =>
          let st1 : BridgeState :=
            { dylib_handle := true
              fn_load_model := lib.load_model
              fn_unload_model := lib.has_unload_model
              fn_generate := lib.generate
              fn_free_string := lib.has_free_string
              fn_is_available := lib.is_available
              fn_get_version := lib.version }
          if lib.load_model.isNone || lib.generate.isNone || !lib.has_free_string then
            ({ st1 with dylib_handle := false },
             [NCall.dlopenCall dylibPath, NCall.dlcloseCall],
             Except.error (NErr.err
               ("Failed to load functions: " ++
                ((if lib.load_model.isNone then "node_mlx_load_model " else "") ++
                 (if lib.generate.isNone then "node_mlx_generate " else "") ++
                 (if !lib.has_free_string then "node_mlx_free_string " else "")))))
          else
            (st1, [NCall.dlopenCall dylibPath], Except.ok (RVal.jsboolV true))
    | _ => (st, [], Except.error (NErr.err "dylibPath argument required"))

/-- binding.cc LoadModel, lines 72-94: null pointer check first, then the
string argument check, then the native call; a negative handle throws an
error naming the model id, any other handle is returned unchanged. -/
def LoadModel (st : BridgeState) (args : List JSVal) : StepResult :=
  match st.fn_load_model with
  | none =>
      (st, [], Except.error (NErr.err
        "Library not initialized. Call initialize() first."))
  | some f =>
      match args.head? with
      | some (JSVal.str modelId) =>
          if f modelId < 0 then
            (st, [NCall.loadModelCall modelId],
             Except.error (NErr.err ("Failed to load model: " ++ modelId)))
          else
            (st, [NCall.loadModelCall modelId], Except.ok (RVal.numV (f modelId)))
      | _ => (st, [], Except.error (NErr.typeErr "Model ID string required"))

/-- binding.cc UnloadModel, lines 97-114: if the unload pointer is null the
call throws "Library not initialized" (this branch is also taken when the
library loaded but lacked the optional symbol); otherwise a numeric handle
is required and forwarded. -/
def UnloadModel (st : BridgeState) (args : List JSVal) : StepResult :=
  if st.fn_unload_model then
    match args.head? with
    | some (JSVal.num q) =>
        (st, [NCall.unloadModelCall (toInt32 q)], Except.ok RVal.undefinedV)
    | _ => (st, [], Except.error (NErr.typeErr "Model handle number required"))
  else
    (st, [], Except.error (NErr.err "Library not initialized"))

/-- binding.cc Generate, lines 117-165: pointer check, argument-shape check,
option parsing, one native generate call; a null result throws without any
free; a non-null result is copied to a host string, freed exactly once, and
the copy returned. -/
def Generate (st : BridgeState) (args : List JSVal) : StepResult :=
  match st.fn_generate with
  | none => (st, [], Except.error (NErr.err "Library not initialized"))
  | some g =>
      match args with
      | JSVal.num q :: JSVal.str prompt :: rest =>
          match parseOpts rest with
          | Except.error e => (st, [], Except.error e)
          | Except.ok (mt, te, tp) =>
              match g (toInt32 q) prompt mt te tp with
              | none =>
                  (st, [NCall.generateCall (toInt32 q) prompt mt te tp],
                   Except.error (NErr.err "Generate returned null"))
              | some s =>
                  (st, [NCall.generateCall (toInt32 q) prompt mt te tp,
                        NCall.freeStringCall s],
                   Except.ok (RVal.strV s))
      | _ =>
          (st, [], Except.error (NErr.typeErr
            "Usage: generate(handle, prompt, options?)"))

/-- binding.cc IsAvailable, lines 168-181: forward if resolved, otherwise a
compile-time platform constant (true exactly on Apple arm64), modelled as
the parameter plat. -/
def IsAvailable (plat : Bool) (st : BridgeState) : StepResult :=
  match st.fn_is_available with
  | some b => (st, [NCall.isAvailableCall], Except.ok (RVal.jsboolV b))
  | none => (st, [], Except.ok (RVal.jsboolV plat))

/-- binding.cc GetVersion, lines 184-197: no initialization check; if the
optional version pointer is resolved and returns non-null, the string is
copied, freed once, and returned; otherwise the fixed fallback "0.1.0". -/
def GetVersion (st : BridgeState) : StepResult :=
  match st.fn_get_version with
  | some (some v) =>
      (st, [NCall.getVersionCall, NCall.freeStringCall v],
       Except.ok (RVal.strV v))
  | some none => (st, [NCall.getVersionCall], Except.ok (RVal.strV "0.1.0"))
  | none => (st, [], Except.ok (RVal.strV "0.1.0"))

/-- binding.cc IsInitialized, lines 200-203: pure query on dylib_handle. -/
def IsInitialized (st : BridgeState) : StepResult :=
  (st, [], Except.ok (RVal.jsboolV st.dylib_handle))

/-- One call into the module surface, for reasoning about call sequences. -/
inductive Op where
  | initOp (args : List JSVal)
  | loadModelOp (args : List JSVal)
  | unloadModelOp (args : List JSVal)
  | generateOp (args : List JSVal)
  | isAvailableOp
  | getVersionOp
  | isInitializedOp

/-- Dispatch one call. -/
def runOp (w : World) (plat : Bool) (st : BridgeState) (op : Op) : StepResult :=
  match op with
  | Op.initOp args => Initialize w st args
  | Op.loadModelOp args => LoadModel st args
  | Op.unloadModelOp args => UnloadModel st args
  | Op.generateOp args => Generate st args
  | Op.isAvailableOp => IsAvailable plat st
  | Op.getVersionOp => GetVersion st
  | Op.isInitializedOp => IsInitialized st

/-- Run a sequence of calls, accumulating the native-call trace. -/
def runSeq (w : World) (plat : Bool) (st : BridgeState) :
    List Op → BridgeState × List NCall
  | [] => (st, [])
  | op :: ops =>
      let r := runOp w plat st op
      let rest := runSeq w plat r.1 ops
      (rest.1, r.2.1 ++ rest.2)

/-!
Concrete libraries, worlds and states used as test fixtures.
-/

/-- A library exporting exactly the three mandatory symbols. -/
def libMandOnly : NativeLib :=
  { load_model := some (fun _ => 1)
    has_unload_model := false
    generate := some (fun _ _ _ _ _ => some "{}")
    has_free_string := true
    is_available := none
    version := none }

/-- A library exporting node_mlx_load_model and node_mlx_free_string but
not the mandatory node_mlx_generate. -/
def libNoGenerate : NativeLib :=
  { load_model := some (fun _ => 3)
    has_unload_model := false
    generate := none
    has_free_string := true
    is_available := none
    version := none }

/-- A world in which only the path good.dylib opens, yielding the
mandatory-only library; every other dlopen fails. -/
def exWorld : World := fun p =>
  if p = "good.dylib" then Except.ok libMandOnly else Except.error "no such file"

/-- A world in which every path opens to the library missing
node_mlx_generate. -/
def worldNoGenerate : World := fun _ => Except.ok libNoGenerate

/-- The state after a successful Initialize of the mandatory-only library. -/
def stMandOnly : BridgeState :=
  (Initialize exWorld initialState [JSVal.str "good.dylib"]).1

/-- The state left behind by an Initialize that opened the library missing
node_mlx_generate and then failed the mandatory-symbol check. -/
def zombieState : BridgeState :=
  (Initialize worldNoGenerate initialState [JSVal.str "libmlx.dylib"]).1

/-- A state whose load entry point answers handle 0 for every model id. -/
def stZeroLoad : BridgeState :=
  { dylib_handle := true
    fn_load_model := some (fun _ => 0)
    fn_unload_model := false
    fn_generate := some (fun _ _ _ _ _ => none)
    fn_free_string := true
    fn_is_available := none
    fn_get_version := none }

/-- A state whose load entry point rejects every model id with -1. -/
def stNegLoad : BridgeState :=
  { dylib_handle := true
    fn_load_model := some (fun _ => -1)
    fn_unload_model := false
    fn_generate := some (fun _ _ _ _ _ => none)
    fn_free_string := true
    fn_is_available := none
    fn_get_version := none }

/-- An Op performs no library open under world w: it is either not an
Initialize call, or an Initialize whose argument check fails, or one whose
dlopen fails. -/
def opensNoLib (w : World) : Op → Prop
  | Op.initOp args =>
      match args.head? with
      | some (JSVal.str p) => ∃ d, w p = Except.error d
      | _ => True
  | _ => True

/-- Once a library is loaded, a single call leaves the state unchanged and
never opens a library. -/
theorem runOp_dylib_true (w : World) (plat : Bool) (st : BridgeState) (op : Op)
    (h : st.dylib_handle = true) :
    (runOp w plat st op).1 = st ∧
    ∀ p, NCall.dlopenCall p ∉ (runOp w plat st op).2.1 := by
  cases op with
  | initOp args =>
      simp [runOp, Initialize, h]
  | loadModelOp args =>
      dsimp only [runOp]
      unfold LoadModel
      constructor
      · repeat' split
        all_goals rfl
      · intro p
        repeat' split
        all_goals simp
  | unloadModelOp args =>
      dsimp only [runOp]
      unfold UnloadModel
      constructor
      · repeat' split
        all_goals rfl
      · intro p
        repeat' split
        all_goals simp
  | generateOp args =>
      dsimp only [runOp]
      unfold Generate
      constructor
      · repeat' split
        all_goals rfl
      · intro p
        repeat' split
        all_goals simp
  | isAvailableOp =>
      dsimp only [runOp]
      unfold IsAvailable
      constructor
      · repeat' split
        all_goals rfl
      · intro p
        repeat' split
        all_goals simp
  | getVersionOp =>
      dsimp only [runOp]
      unfold GetVersion
      constructor
      · repeat' split
        all_goals rfl
      · intro p
        repeat' split
        all_goals simp
  | isInitializedOp => simp [runOp, IsInitialized]

/-- Once a library is loaded, no later sequence of calls changes the state
or opens a library again. -/
theorem runSeq_dylib_true (w : World) (plat : Bool) :
    ∀ (ops : List Op) (st : BridgeState), st.dylib_handle = true →
    (runSeq w plat st ops).1 = st ∧
    ∀ p, NCall.dlopenCall p ∉ (runSeq w plat st ops).2 := by
  intro ops
  induction ops with
  | nil => intro st h; simp [runSeq]
  | cons op ops ih =>
      intro st h
      have h1 := runOp_dylib_true w plat st op h
      have h2 := ih (runOp w plat st op).1 (by rw [h1.1]; exact h)
      rw [h1.1] at h2
      simp only [runSeq]
      rw [h1.1]
      refine ⟨h2.1, ?_⟩
      intro p hp
      rcases List.mem_append.mp hp with hc | hc
      · exact h1.2 p hc
      · exact h2.2 p hc

/-- A call that opens no library leaves the pristine initial state
unchanged. -/
theorem runOp_pristine (w : World) (plat : Bool) (op : Op)
    (h : opensNoLib w op) :
    (runOp w plat initialState op).1 = initialState := by
  cases op with
  | initOp args =>
      dsimp only [runOp]
      unfold Initialize
      simp only [initialState, Bool.false_eq_true, if_false]
      cases hh : args.head? with
      | none => rfl
      | some v =>
          cases v with
          | str p =>
              unfold opensNoLib at h
              dsimp only at h
              rw [hh] at h
              dsimp only at h
              obtain ⟨d, hd⟩ := h
              dsimp only
              rw [hd]
          | num q => rfl
          | obj fields => rfl
          | jsbool b => rfl
          | jsnull => rfl
          | jsundefined => rfl
  | loadModelOp args => rfl
  | unloadModelOp args => rfl
  | generateOp args => rfl
  | isAvailableOp => rfl
  | getVersionOp => rfl
  | isInitializedOp => rfl

/-- A sequence of calls none of which opens a library keeps the pristine
initial state. -/
theorem runSeq_pristine (w : World) (plat : Bool) :
    ∀ ops : List Op, (∀ op ∈ ops, opensNoLib w op) →
    (runSeq w plat initialState ops).1 = initialState := by
  intro ops
  induction ops with
  | nil => intro _; rfl
  | cons op ops ih =>
      intro h
      simp only [runSeq]
      rw [runOp_pristine w plat op (h op (List.mem_cons_self op ops))]
      exact ih (fun o ho => h o (List.mem_cons_of_mem op ho))

/-- C1: evaluation at the failing input.  Initialize on a library exporting
node_mlx_load_model and node_mlx_free_string but not node_mlx_generate
reports the missing mandatory symbol and leaves isInitialized false — but
the previously resolved load-model pointer is NOT cleared, so a subsequent
loadModel does not fail with NotInitialized: it calls straight through the
stale pointer (trace contains the native load-model call) and returns a
handle, contradicting the claimed clean reset to 'not initialized'. -/
theorem C1_zombie_state_after_missing_symbols :
    (Initialize worldNoGenerate initialState [JSVal.str "libmlx.dylib"]).2.2 =
      Except.error (NErr.err "Failed to load functions: node_mlx_generate ") ∧
    zombieState.dylib_handle = false ∧
    (IsInitialized zombieState).2.2 = Except.ok (RVal.jsboolV false) ∧
    zombieState.fn_load_model.isSome = true ∧
    (LoadModel zombieState [JSVal.str "m"]).2.2 = Except.ok (RVal.numV 3) ∧
    (LoadModel zombieState [JSVal.str "m"]).2.1 = [NCall.loadModelCall "m"] :=
  ⟨rfl, rfl, rfl, rfl, rfl, rfl⟩

/-- C2 counterexample: after initializing a library exposing exactly the
three mandatory symbols (so the optional unload entry point is unresolved),
unloadModel with a numeric handle is NOT a silent no-op: it throws
"Library not initialized". -/
theorem C2_counterexample :
    stMandOnly.dylib_handle = true ∧
    stMandOnly.fn_unload_model = false ∧
    (UnloadModel stMandOnly [JSVal.num 1]).2.2 =
      Except.error (NErr.err "Library not initialized") :=
  ⟨rfl, rfl, rfl⟩

/-- C2 (amended): whenever the unload-model entry point is unresolved,
unloadModel — with any arguments, a numeric handle included — fails with
the error "Library not initialized" and performs no native call. -/
theorem C2_unload_without_symbol_errors (st : BridgeState) (args : List JSVal)
    (h : st.fn_unload_model = false) :
    UnloadModel st args =
      (st, [], Except.error (NErr.err "Library not initialized")) := by
  simp [UnloadModel, h]

/-- C2 witness. -/
theorem C2_witness :
    UnloadModel stMandOnly [JSVal.num 1] =
      (stMandOnly, [], Except.error (NErr.err "Library not initialized")) :=
  C2_unload_without_symbol_errors stMandOnly [JSVal.num 1] rfl

/-- C3: on a bridge whose generate pointer is resolved, with a numeric
handle, a string prompt and options that parse: if the native generate
returns null, the call fails with "Generate returned null" and the trace
contains no free-string call; if it returns a string, that string is copied
and returned as the host value, and the trace is exactly the generate call
followed by one free of that same pointer — freed exactly once, before
returning, never accessed afterwards. -/
theorem C3_generate_ownership (st : BridgeState)
    (g : Int → String → Int → ℚ → ℚ → Option String)
    (q : ℚ) (p : String) (rest : List JSVal) (mt : Int) (te tp : ℚ)
    (hg : st.fn_generate = some g)
    (hopts : parseOpts rest = Except.ok (mt, te, tp)) :
    (g (toInt32 q) p mt te tp = none →
      Generate st (JSVal.num q :: JSVal.str p :: rest) =
        (st, [NCall.generateCall (toInt32 q) p mt te tp],
         Except.error (NErr.err "Generate returned null"))) ∧
    (∀ s, g (toInt32 q) p mt te tp = some s →
      Generate st (JSVal.num q :: JSVal.str p :: rest) =
        (st, [NCall.generateCall (toInt32 q) p mt te tp,
              NCall.freeStringCall s],
         Except.ok (RVal.strV s))) := by
  constructor
  · intro hnull
    simp [Generate, hg, hopts, hnull]
  · intro s hs
    simp [Generate, hg, hopts, hs]

/-- C3 witness. -/
theorem C3_witness :
    Generate stMandOnly [JSVal.num 1, JSVal.str "hi"] =
      (stMandOnly,
       [NCall.generateCall (toInt32 1) "hi" 256 (7 / 10) (9 / 10),
        NCall.freeStringCall "{}"],
       Except.ok (RVal.strV "{}")) :=
  (C3_generate_ownership stMandOnly (fun _ _ _ _ _ => some "{}") 1 "hi" []
    256 (7 / 10) (9 / 10) rfl rfl).2 "{}" rfl

/-- C4 counterexample: in the pristine uninitialized state (no successful
initialize has occurred), getVersion does not fail with NotInitialized —
it returns the fallback version string. -/
theorem C4_counterexample :
    (GetVersion initialState).2.2 = Except.ok (RVal.strV "0.1.0") ∧
    ∀ e, (GetVersion initialState).2.2 ≠ Except.error e := by
  refine ⟨rfl, ?_⟩
  intro e he
  simp [GetVersion, initialState] at he

/-- C4 (amended): for any sequence of calls in which no initialize call
opened a library (every initialize failed its argument check or its
dlopen), the state is still the pristine initial one, and in that state
loadModel, unloadModel and generate fail with a NotInitialized error and
perform no native call, while getVersion performs no native call but
returns the fallback version string instead of failing. -/
theorem C4_not_initialized_behavior (w : World) (plat : Bool) (ops : List Op)
    (h : ∀ op ∈ ops, opensNoLib w op) :
    (runSeq w plat initialState ops).1 = initialState ∧
    (∀ args, LoadModel initialState args =
      (initialState, [],
       Except.error (NErr.err
         "Library not initialized. Call initialize() first."))) ∧
    (∀ args, UnloadModel initialState args =
      (initialState, [], Except.error (NErr.err "Library not initialized"))) ∧
    (∀ args, Generate initialState args =
      (initialState, [], Except.error (NErr.err "Library not initialized"))) ∧
    GetVersion initialState =
      (initialState, [], Except.ok (RVal.strV "0.1.0")) := by
  refine ⟨runSeq_pristine w plat ops h, fun args => rfl, fun args => rfl,
    fun args => rfl, rfl⟩

/-- C4 witness: a concrete sequence of a failing initialize followed by a
getVersion keeps the pristine state, in which loadModel then fails with
NotInitialized. -/
theorem C4_witness :
    (runSeq exWorld true initialState
      [Op.initOp [JSVal.str "bad.dylib"], Op.getVersionOp]).1 =
      initialState ∧
    LoadModel initialState [JSVal.str "m"] =
      (initialState, [],
       Except.error (NErr.err
         "Library not initialized. Call initialize() first.")) := by
  have h := C4_not_initialized_behavior exWorld true
    [Op.initOp [JSVal.str "bad.dylib"], Op.getVersionOp] (by
      intro op hop
      fin_cases hop
      · exact ⟨"no such file", rfl⟩
      · trivial)
  exact ⟨h.1, h.2.1 [JSVal.str "m"]⟩

/-- C5: on a bridge whose generate pointer is resolved, the native generate
entry point is invoked with exactly the handle, the prompt, and the three
option values, for every options object: each recognized key that is
supplied (as a number) forwards its converted value and each key not
supplied takes its default (maxTokens 256, temperature 0.7, topP 0.9) —
all eight supply combinations are covered — and keys other than the three
recognized ones have no effect, since only the lookups of those three keys
constrain the object. -/
theorem C5_option_forwarding (st : BridgeState)
    (g : Int → String → Int → ℚ → ℚ → Option String)
    (q : ℚ) (p : String) (fields : List (String × JSVal))
    (mt : Int) (te tp : ℚ)
    (hg : st.fn_generate = some g)
    (hmt : fields.lookup "maxTokens" = none ∧ mt = 256 ∨
      ∃ m, fields.lookup "maxTokens" = some (JSVal.num m) ∧ mt = toInt32 m)
    (hte : fields.lookup "temperature" = none ∧ te = 7 / 10 ∨
      ∃ t, fields.lookup "temperature" = some (JSVal.num t) ∧ te = t)
    (htp : fields.lookup "topP" = none ∧ tp = 9 / 10 ∨
      ∃ r, fields.lookup "topP" = some (JSVal.num r) ∧ tp = r) :
    ((Generate st [JSVal.num q, JSVal.str p, JSVal.obj fields]).2.1).head? =
      some (NCall.generateCall (toInt32 q) p mt te tp) := by
  have hopts : parseOpts [JSVal.obj fields] = Except.ok (mt, te, tp) := by
    rcases hmt with ⟨h1, rfl⟩ | ⟨m, h1, rfl⟩ <;>
      rcases hte with ⟨h2, rfl⟩ | ⟨t, h2, rfl⟩ <;>
        rcases htp with ⟨h3, rfl⟩ | ⟨r, h3, rfl⟩ <;>
          simp [parseOpts, readOptInt32, readOptRat, h1, h2, h3]
  cases hres : g (toInt32 q) p mt te tp with
  | none => simp [Generate, hg, hopts, hres]
  | some s => simp [Generate, hg, hopts, hres]

/-- C5 witness: an options object with the unrecognized key foo and
maxTokens 10 forwards maxTokens 10, temperature 0.7, topP 0.9; one
supplying temperature 0.5 and topP 0.3 forwards maxTokens 256 with those
two values. -/
theorem C5_witness :
    ((Generate stMandOnly [JSVal.num 1, JSVal.str "hello",
        JSVal.obj [("foo", JSVal.num 1),
                   ("maxTokens", JSVal.num 10)]]).2.1).head? =
      some (NCall.generateCall (toInt32 1) "hello" (toInt32 10)
        (7 / 10) (9 / 10)) ∧
    ((Generate stMandOnly [JSVal.num 1, JSVal.str "hello",
        JSVal.obj [("temperature", JSVal.num (1 / 2)),
                   ("topP", JSVal.num (3 / 10))]]).2.1).head? =
      some (NCall.generateCall (toInt32 1) "hello" 256 (1 / 2) (3 / 10)) :=
  ⟨C5_option_forwarding stMandOnly (fun _ _ _ _ _ => some "{}") 1 "hello"
      [("foo", JSVal.num 1), ("maxTokens", JSVal.num 10)]
      (toInt32 10) (7 / 10) (9 / 10) rfl
      (Or.inr ⟨10, rfl, rfl⟩) (Or.inl ⟨rfl, rfl⟩) (Or.inl ⟨rfl, rfl⟩),
   C5_option_forwarding stMandOnly (fun _ _ _ _ _ => some "{}") 1 "hello"
      [("temperature", JSVal.num (1 / 2)), ("topP", JSVal.num (3 / 10))]
      256 (1 / 2) (3 / 10) rfl
      (Or.inl ⟨rfl, rfl⟩) (Or.inr ⟨1 / 2, rfl, rfl⟩)
      (Or.inr ⟨3 / 10, rfl, rfl⟩)⟩

/-- C6: once a library is loaded, every further Initialize — with any
arguments, a different path included — returns success immediately with an
unchanged state and an empty native trace, and no later sequence of calls
ever opens a library again, so at most one library load occurs per process
lifetime. -/
theorem C6_init_idempotent (w : World) (st : BridgeState)
    (h : st.dylib_handle = true) :
    (∀ args, Initialize w st args = (st, [], Except.ok (RVal.jsboolV true))) ∧
    (∀ plat ops, (runSeq w plat st ops).1 = st ∧
      ∀ p, NCall.dlopenCall p ∉ (runSeq w plat st ops).2) :=
  ⟨fun args => by simp [Initialize, h],
   fun plat ops => runSeq_dylib_true w plat ops st h⟩

/-- C6 witness: a second initialize with a different path on the loaded
bridge is an immediate success with no native activity. -/
theorem C6_witness :
    Initialize exWorld stMandOnly [JSVal.str "other.dylib"] =
      (stMandOnly, [], Except.ok (RVal.jsboolV true)) :=
  (C6_init_idempotent exWorld stMandOnly rfl).1 [JSVal.str "other.dylib"]

/-- C7: on a bridge whose load pointer is resolved, loadModel with a string
argument fails with an error naming the requested identifier when the
native call returns a negative value, and otherwise returns the native
integer handle unchanged. -/
theorem C7_load_model_result (st : BridgeState) (f : String → Int)
    (modelId : String) (rest : List JSVal)
    (hf : st.fn_load_model = some f) :
    (f modelId < 0 →
      LoadModel st (JSVal.str modelId :: rest) =
        (st, [NCall.loadModelCall modelId],
         Except.error (NErr.err ("Failed to load model: " ++ modelId)))) ∧
    (0 ≤ f modelId →
      LoadModel st (JSVal.str modelId :: rest) =
        (st, [NCall.loadModelCall modelId],
         Except.ok (RVal.numV (f modelId)))) := by
  constructor
  · intro hneg
    simp [LoadModel, hf, hneg]
  · intro hpos
    simp [LoadModel, hf, not_lt.mpr hpos]

/-- C7 witness: a native -1 is rejected naming the id; a native 1 is
returned unchanged. -/
theorem C7_witness :
    LoadModel stNegLoad [JSVal.str "bad-id"] =
      (stNegLoad, [NCall.loadModelCall "bad-id"],
       Except.error (NErr.err "Failed to load model: bad-id")) ∧
    LoadModel stMandOnly [JSVal.str "good-id"] =
      (stMandOnly, [NCall.loadModelCall "good-id"],
       Except.ok (RVal.numV 1)) :=
  ⟨(C7_load_model_result stNegLoad (fun _ => -1) "bad-id" [] rfl).1
      (by decide),
   (C7_load_model_result stMandOnly (fun _ => 1) "good-id" [] rfl).2
      (by decide)⟩

/-- C8: when the state is uninitialized and dlopen fails for the given
path, Initialize fails with an error naming the path and the loader
diagnostic, the state is unchanged (isInitialized stays false), and a later
retry with a path that opens a library holding all mandatory symbols
succeeds. -/
theorem C8_load_failure_clean (w : World) (st : BridgeState)
    (path diag : String) (args : List JSVal)
    (hdy : st.dylib_handle = false)
    (harg : args.head? = some (JSVal.str path))
    (hw : w path = Except.error diag) :
    Initialize w st args =
      (st, [NCall.dlopenCall path],
       Except.error (NErr.err
         ("Failed to load dylib at " ++ path ++ ": " ++ diag))) ∧
    (IsInitialized st).2.2 = Except.ok (RVal.jsboolV false) ∧
    (∀ path2 lib, w path2 = Except.ok lib →
      lib.load_model.isNone = false → lib.generate.isNone = false →
      lib.has_free_string = true →
      (Initialize w st [JSVal.str path2]).2.2 =
        Except.ok (RVal.jsboolV true)) := by
  refine ⟨?_, ?_, ?_⟩
  · simp [Initialize, hdy, harg, hw]
  · simp [IsInitialized, hdy]
  · intro path2 lib hw2 h1 h2 h3
    simp [Initialize, hdy, hw2, h1, h2, h3]

/-- C8 witness: a bad path fails naming path and diagnostic; a retry with
the good path then succeeds. -/
theorem C8_witness :
    Initialize exWorld initialState [JSVal.str "bad.dylib"] =
      (initialState, [NCall.dlopenCall "bad.dylib"],
       Except.error (NErr.err
         "Failed to load dylib at bad.dylib: no such file")) ∧
    (Initialize exWorld initialState [JSVal.str "good.dylib"]).2.2 =
      Except.ok (RVal.jsboolV true) := by
  have h := C8_load_failure_clean exWorld initialState "bad.dylib"
    "no such file" [JSVal.str "bad.dylib"] rfl rfl rfl
  exact ⟨h.1, h.2.2 "good.dylib" libMandOnly rfl rfl rfl rfl⟩

/-- C9: getVersion never raises an error in any state — there is always an
ordinary string result; with the version pointer unresolved it is the
fallback with no native call; resolved but returning null, the fallback
after the one native call; resolved and non-null, the copied string with
the pointer freed exactly once. -/
theorem C9_get_version_never_fails (st : BridgeState) :
    (∃ s, (GetVersion st).2.2 = Except.ok (RVal.strV s)) ∧
    (st.fn_get_version = none →
      GetVersion st = (st, [], Except.ok (RVal.strV "0.1.0"))) ∧
    (st.fn_get_version = some none →
      GetVersion st = (st, [NCall.getVersionCall],
        Except.ok (RVal.strV "0.1.0"))) ∧
    (∀ v, st.fn_get_version = some (some v) →
      GetVersion st = (st, [NCall.getVersionCall, NCall.freeStringCall v],
        Except.ok (RVal.strV v))) := by
  refine ⟨?_, ?_, ?_, ?_⟩
  · cases hv : st.fn_get_version with
    | none => exact ⟨"0.1.0", by simp [GetVersion, hv]⟩
    | some o =>
        cases o with
        | none => exact ⟨"0.1.0", by simp [GetVersion, hv]⟩
        | some v => exact ⟨v, by simp [GetVersion, hv]⟩
  · intro hv
    simp [GetVersion, hv]
  · intro hv
    simp [GetVersion, hv]
  · intro v hv
    simp [GetVersion, hv]

/-- C9 witness. -/
theorem C9_witness :
    GetVersion initialState =
      (initialState, [], Except.ok (RVal.strV "0.1.0")) :=
  (C9_get_version_never_fails initialState).2.1 rfl

/-- C10: when the native load entry point returns 0, loadModel treats it as
success and returns handle 0 without error — only strictly negative native
values are rejected. -/
theorem C10_zero_handle_is_success (st : BridgeState) (f : String → Int)
    (modelId : String) (hf : st.fn_load_model = some f)
    (h0 : f modelId = 0) :
    LoadModel st [JSVal.str modelId] =
      (st, [NCall.loadModelCall modelId], Except.ok (RVal.numV 0)) := by
  simp [LoadModel, hf, h0]

/-- C10 witness. -/
theorem C10_witness :
    LoadModel stZeroLoad [JSVal.str "m"] =
      (stZeroLoad, [NCall.loadModelCall "m"], Except.ok (RVal.numV 0)) :=
  C10_zero_handle_is_success stZeroLoad (fun _ => 0) "m" rfl rfl

end NodeMlx
